import Mathlib

/-
Verification of the mlb-microservices gateway and directory services.

The development shallowly embeds the JavaScript handlers of src/gateway.js,
src/services/player.js and src/services/team.js. JSON values are modelled by
the inductive type Json, JavaScript truthiness by jsTruthy, property access by
jsGetField, the String() conversion by jsToString, and parseInt by parseInt.
Each HTTP handler becomes a pure function from its upstream payloads to a
reply body and reply status.
-/

/-- A JSON value as seen by the JavaScript handlers, extended with the
JavaScript undefined value, which property access on a missing key produces. -/
inductive Json where
  | undef : Json
  | null : Json
  | bool (b : Bool) : Json
  | num (n : Int) : Json
  | str (s : String) : Json
  | arr (elems : List Json) : Json
  | obj (fields : List (String × Json)) : Json

mutual

/-- Structural equality test on Json values. -/
def Json.beq : Json → Json → Bool
  | Json.undef, Json.undef => true
  | Json.null, Json.null => true
  | Json.bool a, Json.bool b => a == b
  | Json.num a, Json.num b => a == b
  | Json.str a, Json.str b => a == b
  | Json.arr xs, Json.arr ys => Json.beqList xs ys
  | Json.obj fs, Json.obj gs => Json.beqFields fs gs
  | _, _ => false

/-- Pointwise equality test on lists of Json values. -/
def Json.beqList : List Json → List Json → Bool
  | [], [] => true
  | x :: xs, y :: ys => Json.beq x y && Json.beqList xs ys
  | _, _ => false

/-- Pointwise equality test on Json object fields. -/
def Json.beqFields : List (String × Json) → List (String × Json) → Bool
  | [], [] => true
  | (k, v) :: fs, (l, w) :: gs => k == l && Json.beq v w && Json.beqFields fs gs
  | _, _ => false

end

mutual

/-- The boolean equality test on Json agrees with propositional equality. -/
theorem Json.beq_iff : (a b : Json) → (Json.beq a b = true ↔ a = b)
  | Json.undef, Json.undef => by simp [Json.beq]
  | Json.null, Json.null => by simp [Json.beq]
  | Json.bool a, Json.bool b => by simp [Json.beq]
  | Json.num a, Json.num b => by simp [Json.beq]
  | Json.str a, Json.str b => by simp [Json.beq]
  | Json.arr xs, Json.arr ys => by
    simp only [Json.beq, Json.beqList_iff xs ys]
    exact ⟨fun h => h ▸ rfl, fun h => Json.arr.inj h⟩
  | Json.obj fs, Json.obj gs => by
    simp only [Json.beq, Json.beqFields_iff fs gs]
    exact ⟨fun h => h ▸ rfl, fun h => Json.obj.inj h⟩
  | Json.undef, Json.null => by simp [Json.beq]
  | Json.undef, Json.bool _ => by simp [Json.beq]
  | Json.undef, Json.num _ => by simp [Json.beq]
  | Json.undef, Json.str _ => by simp [Json.beq]
  | Json.undef, Json.arr _ => by simp [Json.beq]
  | Json.undef, Json.obj _ => by simp [Json.beq]
  | Json.null, Json.undef => by simp [Json.beq]
  | Json.null, Json.bool _ => by simp [Json.beq]
  | Json.null, Json.num _ => by simp [Json.beq]
  | Json.null, Json.str _ => by simp [Json.beq]
  | Json.null, Json.arr _ => by simp [Json.beq]
  | Json.null, Json.obj _ => by simp [Json.beq]
  | Json.bool _, Json.undef => by simp [Json.beq]
  | Json.bool _, Json.null => by simp [Json.beq]
  | Json.bool _, Json.num _ => by simp [Json.beq]
  | Json.bool _, Json.str _ => by simp [Json.beq]
  | Json.bool _, Json.arr _ => by simp [Json.beq]
  | Json.bool _, Json.obj _ => by simp [Json.beq]
  | Json.num _, Json.undef => by simp [Json.beq]
  | Json.num _, Json.null => by simp [Json.beq]
  | Json.num _, Json.bool _ => by simp [Json.beq]
  | Json.num _, Json.str _ => by simp [Json.beq]
  | Json.num _, Json.arr _ => by simp [Json.beq]
  | Json.num _, Json.obj _ => by simp [Json.beq]
  | Json.str _, Json.undef => by simp [Json.beq]
  | Json.str _, Json.null => by simp [Json.beq]
  | Json.str _, Json.bool _ => by simp [Json.beq]
  | Json.str _, Json.num _ => by simp [Json.beq]
  | Json.str _, Json.arr _ => by simp [Json.beq]
  | Json.str _, Json.obj _ => by simp [Json.beq]
  | Json.arr _, Json.undef => by simp [Json.beq]
  | Json.arr _, Json.null => by simp [Json.beq]
  | Json.arr _, Json.bool _ => by simp [Json.beq]
  | Json.arr _, Json.num _ => by simp [Json.beq]
  | Json.arr _, Json.str _ => by simp [Json.beq]
  | Json.arr _, Json.obj _ => by simp [Json.beq]
  | Json.obj _, Json.undef => by simp [Json.beq]
  | Json.obj _, Json.null => by simp [Json.beq]
  | Json.obj _, Json.bool _ => by simp [Json.beq]
  | Json.obj _, Json.num _ => by simp [Json.beq]
  | Json.obj _, Json.str _ => by simp [Json.beq]
  | Json.obj _, Json.arr _ => by simp [Json.beq]

/-- Pointwise list equality agrees with propositional equality. -/
theorem Json.beqList_iff : (xs ys : List Json) → (Json.beqList xs ys = true ↔ xs = ys)
  | [], [] => by simp [Json.beqList]
  | x :: xs, y :: ys => by
    simp only [Json.beqList, Bool.and_eq_true, Json.beq_iff x y, Json.beqList_iff xs ys]
    simp
  | [], _ :: _ => by simp [Json.beqList]
  | _ :: _, [] => by simp [Json.beqList]

/-- Pointwise field equality agrees with propositional equality. -/
theorem Json.beqFields_iff : (fs gs : List (String × Json)) →
    (Json.beqFields fs gs = true ↔ fs = gs)
  | [], [] => by simp [Json.beqFields]
  | (k, v) :: fs, (l, w) :: gs => by
    simp only [Json.beqFields, Bool.and_eq_true, Json.beq_iff v w, Json.beqFields_iff fs gs]
    constructor
    · rintro ⟨⟨h1, h2⟩, h3⟩
      simp_all
    · intro h
      injection h with h1 h2
      cases h1
      simp_all
  | [], _ :: _ => by simp [Json.beqFields]
  | _ :: _, [] => by simp [Json.beqFields]

end

instance : DecidableEq Json := fun a b =>
  decidable_of_iff (Json.beq a b = true) (Json.beq_iff a b)

/-- JavaScript truthiness of a Json value: undefined, null, false, 0 and the
empty string are falsy; every object and array is truthy. -/
def jsTruthy : Json → Bool
  | Json.undef => false
  | Json.null => false
  | Json.bool b => b
  | Json.num n => n != 0
  | Json.str s => s != ""
  | Json.arr _ => true
  | Json.obj _ => true

/-- JavaScript property access v.key: the value of the first field named key on
an object, undefined on a missing key and on every non-object value. -/
def jsGetField (v : Json) (key : String) : Json :=
  match v with
  | Json.obj fields =>
    match fields.find? (fun f => f.1 == key) with
    | some f => f.2
    | none => Json.undef
  | _ => Json.undef

mutual

/-- The JavaScript String() conversion used by the roster filter in
src/gateway.js line 259: numbers print in decimal, arrays join their element
strings with commas, objects print as [object Object]. -/
def jsToString : Json → String
  | Json.undef => "undefined"
  | Json.null => "null"
  | Json.bool true => "true"
  | Json.bool false => "false"
  | Json.num n => toString n
  | Json.str s => s
  | Json.arr xs => String.intercalate "," (jsElemStrings xs)
  | Json.obj _ => "[object Object]"

/-- Element strings of an array under the JavaScript join, where null and
undefined elements stringify to the empty string. -/
def jsElemStrings : List Json → List String
  | [] => []
  | Json.undef :: xs => "" :: jsElemStrings xs
  | Json.null :: xs => "" :: jsElemStrings xs
  | x :: xs => jsToString x :: jsElemStrings xs

end

/-- Whitespace skipped by the JavaScript parseInt function. -/
def isJsSpace (c : Char) : Bool :=
  [' ', '\t', '\n', '\r'].contains c

/-- Value of a decimal digit character, none on any other character, phrased
over code points: the digits occupy 48 to 57. -/
def decDigit (c : Char) : Option Nat :=
  let v := c.toNat
  if v < 48 then none else if v ≤ 57 then some (v - 48) else none

/-- Value of a hexadecimal digit character, none on any other character,
phrased over code points: the lowercase letters a to f occupy 97 to 102 and
the uppercase ones 65 to 70. -/
def hexDigit (c : Char) : Option Nat :=
  let v := c.toNat
  if 48 ≤ v ∧ v ≤ 57 then some (v - 48)
  else if 97 ≤ v ∧ v ≤ 102 then some (v - 87)
  else if 65 ≤ v ∧ v ≤ 70 then some (v - 55)
  else none

/-- Reads the longest leading digit run into an accumulator; the accumulator
stays none when no digit at all is consumed, modelling a NaN result. -/
def readDigits (digit : Char → Option Nat) (base : Nat) :
    List Char → Option Nat → Option Nat
  | [], acc => acc
  | c :: cs, acc =>
    match digit c with
    | some d => readDigits digit base cs (some (acc.getD 0 * base + d))
    | none => acc

/-- The JavaScript parseInt function with the radix argument omitted, as called
in src/services/player.js line 120 and src/services/team.js line 112: skip
whitespace, accept an optional sign, then read a hexadecimal literal after a 0x
prefix or a decimal digit run, ignoring every trailing character; none models
the NaN result of an id with no leading digits. -/
def parseInt (s : String) : Option Int :=
  let cs := s.data.dropWhile isJsSpace
  let signed : Bool × List Char :=
    match cs with
    | '-' :: t => (true, t)
    | '+' :: t => (false, t)
    | _ => (false, cs)
  let mag : Option Nat :=
    match signed.2 with
    | '0' :: 'x' :: t => readDigits hexDigit 16 t none
    | '0' :: 'X' :: t => readDigits hexDigit 16 t none
    | t => readDigits decDigit 10 t none
  mag.map (fun m => if signed.1 then -(m : Int) else (m : Int))

/-- The uniform ServiceError payload shape of both directories and the
gateway. -/
def jsErrObj (msg : String) : Json :=
  Json.obj [("error", Json.str msg)]

/-- The find callback of both directory GET /:id handlers: the record id field
is strictly equal to parseInt of the path id. A NaN parse result (none) is
strictly equal to nothing. -/
def recordMatches (idStr : String) (r : Json) : Bool :=
  match parseInt idStr with
  | some n => Json.beq (jsGetField r "id") (Json.num n)
  | none => false

/-- The GET /:id handler shared by both directory services
(src/services/player.js lines 118-128 and src/services/team.js lines 110-121):
find the first record matching the coerced id; when the find result is falsy
reply 404 with the service error payload, otherwise reply the record with
status 200. -/
def directoryGetById (records : List Json) (msg : String) (idStr : String) : Json × Nat :=
  let found : Json :=
    match records.find? (recordMatches idStr) with
    | some r => r
    | none => Json.undef
  if jsTruthy found then (found, 200) else (jsErrObj msg, 404)

/-- Seed record of the player service (src/services/player.js line 64). -/
def ohtani : Json := Json.obj
  [("id", Json.num 1), ("teamId", Json.num 1),
   ("name", Json.str "Shohei Ohtani"), ("position", Json.str "DH/P")]

/-- Seed record of the player service (src/services/player.js line 65). -/
def betts : Json := Json.obj
  [("id", Json.num 2), ("teamId", Json.num 1),
   ("name", Json.str "Mookie Betts"), ("position", Json.str "2B")]

/-- Seed record of the player service (src/services/player.js line 66). -/
def judge : Json := Json.obj
  [("id", Json.num 3), ("teamId", Json.num 2),
   ("name", Json.str "Aaron Judge"), ("position", Json.str "RF")]

/-- The in-memory seed data of the player service
(src/services/player.js lines 63-67). -/
def players : List Json := [ohtani, betts, judge]

/-- Seed record of the team service (src/services/team.js line 58). -/
def dodgers : Json := Json.obj
  [("id", Json.num 1), ("name", Json.str "Los Angeles Dodgers"),
   ("division", Json.str "NL West")]

/-- Seed record of the team service (src/services/team.js line 59). -/
def yankees : Json := Json.obj
  [("id", Json.num 2), ("name", Json.str "New York Yankees"),
   ("division", Json.str "AL East")]

/-- The in-memory seed data of the team service
(src/services/team.js lines 57-60). -/
def teams : List Json := [dodgers, yankees]

/-- GET /:id of the player service against its seed data. -/
def playerGetById (idStr : String) : Json × Nat :=
  directoryGetById players "Player not found" idStr

/-- GET /:id of the team service against its seed data. -/
def teamGetById (idStr : String) : Json × Nat :=
  directoryGetById teams "Team not found" idStr

/-- The gateway passthrough for a single resource (src/gateway.js lines
180-184): the parsed upstream body is returned as the reply body, and because
the handler never touches the reply status, Fastify replies with its default
status 200 whatever the upstream status was. -/
def proxyById (upstream : Json × Nat) : Json × Nat :=
  (upstream.1, 200)

/-- GET /players/:id at the gateway: the passthrough applied to the player
directory response. -/
def gatewayPlayerById (idStr : String) : Json × Nat :=
  proxyById (playerGetById idStr)

/-- Observable outcome of one gateway roster request: the reply body, the
reply status, and whether the player directory was called while serving it. -/
structure RosterOutcome where
  body : Json
  status : Nat
  calledPlayers : Bool
deriving DecidableEq

/-- The roster filter of src/gateway.js lines 258-260: keep every player whose
teamId, converted by String(), equals the String() form of the requested id. -/
def rosterFilter (teamId : Json) (ps : List Json) : List Json :=
  ps.filter (fun p => jsToString (jsGetField p "teamId") == jsToString teamId)

/-- The Array.isArray guard of src/gateway.js lines 258-260: a non-array
players payload contributes the empty roster. -/
def rosterOf (playersBody : Json) (teamId : Json) : List Json :=
  match playersBody with
  | Json.arr ps => rosterFilter teamId ps
  | _ => []

/-- The GET /teams/:id/roster handler (src/gateway.js lines 244-266) as a
function of the two upstream bodies: when the team payload and its error field
are both truthy, reply 404 with the gateway-authored error and skip the player
directory call (calledPlayers = false); otherwise fetch the players, filter
them, and reply 200 with the composed body. -/
def getRoster (teamBody : Json) (playersBody : Json) (teamId : Json) : RosterOutcome :=
  if jsTruthy teamBody && jsTruthy (jsGetField teamBody "error") then
    ⟨jsErrObj "Team not found", 404, false⟩
  else
    ⟨Json.obj [("team", teamBody), ("roster", Json.arr (rosterOf playersBody teamId))],
      200, true⟩

/-- The roster handler wired to a full team directory response pair of body and
status: the handler parses only the body and never reads the upstream status
(src/gateway.js lines 247-250). -/
def getRosterFromResponse (teamResp : Json × Nat) (playersBody : Json) (teamId : Json) :
    RosterOutcome :=
  getRoster teamResp.1 playersBody teamId

/-- The end-to-end roster pipeline over arbitrary directory record sets: the
team directory GET /:id response feeds the roster handler together with the
player directory listing. -/
def gatewayRosterWith (teamRecords playerRecords : List Json) (idStr : String) :
    RosterOutcome :=
  getRosterFromResponse (directoryGetById teamRecords "Team not found" idStr)
    (Json.arr playerRecords) (Json.str idStr)

/-- GET /teams/:id/roster at the gateway against the seeded directories. -/
def gatewayRoster (idStr : String) : RosterOutcome :=
  gatewayRosterWith teams players idStr

/-- A find over a list returns its unique match. -/
theorem find_of_unique {α : Type} (p : α → Bool) :
    (l : List α) → (t : α) → t ∈ l → p t = true →
    (∀ r ∈ l, p r = true → r = t) → l.find? p = some t
  | [], t, hmem, _, _ => absurd hmem (List.not_mem_nil t)
  | x :: xs, t, hmem, hpt, huniq => by
    by_cases hx : p x = true
    · have hxt : x = t := huniq x (List.mem_cons_self x xs) hx
      subst hxt
      exact List.find?_cons_of_pos xs hx
    · have hmem2 : t ∈ xs := by
        cases hmem with
        | head => exact absurd hpt hx
        | tail _ h => exact h
      have ih := find_of_unique p xs t hmem2 hpt
        (fun r hr hpr => huniq r (List.mem_cons_of_mem x hr) hpr)
      rw [List.find?_cons_of_neg xs (by simpa using hx)]
      exact ih

/-- A directory lookup on which no record matches replies the 404 error
payload. -/
theorem directoryGetById_notfound (records : List Json) (msg idStr : String)
    (h : ∀ r ∈ records, recordMatches idStr r = false) :
    directoryGetById records msg idStr = (jsErrObj msg, 404) := by
  have hnone : records.find? (recordMatches idStr) = none := by
    rw [List.find?_eq_none]
    intro r hr
    simp [h r hr]
  simp [directoryGetById, hnone, jsTruthy]

/-- A directory lookup that finds a truthy record replies it with
status 200. -/
theorem directoryGetById_found (records : List Json) (msg idStr : String) (t : Json)
    (hfind : records.find? (recordMatches idStr) = some t)
    (htr : jsTruthy t = true) :
    directoryGetById records msg idStr = (t, 200) := by
  simp [directoryGetById, hfind, htr]

/-- A record match pins down the record id field to the parsed path id. -/
theorem recordMatches_id (idStr : String) (r : Json)
    (h : recordMatches idStr r = true) :
    ∃ n : Int, parseInt idStr = some n ∧ jsGetField r "id" = Json.num n := by
  unfold recordMatches at h
  cases hp : parseInt idStr with
  | none => rw [hp] at h; exact absurd h (by simp)
  | some n =>
    rw [hp] at h
    exact ⟨n, rfl, (Json.beq_iff _ _).mp h⟩

/-- The roster handler composes whenever the short-circuit condition is
false. -/
theorem getRoster_composes (teamBody playersBody teamId : Json)
    (h : (jsTruthy teamBody && jsTruthy (jsGetField teamBody "error")) = false) :
    getRoster teamBody playersBody teamId =
      ⟨Json.obj [("team", teamBody), ("roster", Json.arr (rosterOf playersBody teamId))],
        200, true⟩ := by
  simp [getRoster, h]

/-- Refiltering a filtered listing changes nothing. -/
theorem rosterFilter_twice (teamId : Json) (ps : List Json) :
    rosterFilter teamId (rosterFilter teamId ps) = rosterFilter teamId ps := by
  simp [rosterFilter, List.filter_filter]

/-- C1: the passthrough GET /players/:id forwards the player directory body
unchanged at every id, but not the status: at id 999 the directory replies 404
with the error payload while the gateway replies the same body with status
200, because the handler never sets a reply status. -/
theorem gatewayPlayerById_status_divergence :
    playerGetById "999" = (jsErrObj "Player not found", 404)
  ∧ gatewayPlayerById "999" = (jsErrObj "Player not found", 200)
  ∧ (∀ idStr : String, (gatewayPlayerById idStr).1 = (playerGetById idStr).1) :=
  ⟨rfl, rfl, fun _ => rfl⟩

/-- C2: for a requested id matching no team record, the roster route replies
404 with the gateway-authored error payload and never calls the player
directory, whatever the player records hold. -/
theorem getRoster_absent_team (teamRecords playerRecords : List Json) (idStr : String)
    (habs : ∀ r ∈ teamRecords, recordMatches idStr r = false) :
    gatewayRosterWith teamRecords playerRecords idStr =
      ⟨jsErrObj "Team not found", 404, false⟩ := by
  unfold gatewayRosterWith getRosterFromResponse
  rw [directoryGetById_notfound teamRecords "Team not found" idStr habs]
  simp [getRoster, jsErrObj, jsGetField, jsTruthy]

/-- C2 witness: the roster route at the absent team id 999. -/
theorem getRoster_absent_team_witness :
    gatewayRosterWith teams players "999" = ⟨jsErrObj "Team not found", 404, false⟩ :=
  getRoster_absent_team teams players "999" (by decide)

/-- C3: when a unique truthy team record without an error field matches the
requested id, the roster route replies 200 with that record embedded verbatim
as team and with exactly the players whose teamId string-matches the id, in
listing order (the roster is a sublist of the listing); the record id equals
the integer coercion of the requested id; an empty filter result still yields
the 200 composed reply. -/
theorem getRoster_present_team (teamRecords playerRecords : List Json)
    (idStr : String) (t : Json)
    (hmem : t ∈ teamRecords)
    (hmatch : recordMatches idStr t = true)
    (huniq : ∀ r ∈ teamRecords, recordMatches idStr r = true → r = t)
    (htr : jsTruthy t = true)
    (herr : jsTruthy (jsGetField t "error") = false) :
    (gatewayRosterWith teamRecords playerRecords idStr =
      ⟨Json.obj [("team", t),
        ("roster", Json.arr (rosterFilter (Json.str idStr) playerRecords))], 200, true⟩)
  ∧ (rosterFilter (Json.str idStr) playerRecords).Sublist playerRecords
  ∧ ∃ n : Int, parseInt idStr = some n ∧ jsGetField t "id" = Json.num n := by
  refine ⟨?_, List.filter_sublist playerRecords, recordMatches_id idStr t hmatch⟩
  have hfind : teamRecords.find? (recordMatches idStr) = some t :=
    find_of_unique (recordMatches idStr) teamRecords t hmem hmatch huniq
  unfold gatewayRosterWith getRosterFromResponse
  rw [directoryGetById_found teamRecords "Team not found" idStr t hfind htr]
  rw [getRoster_composes t (Json.arr playerRecords) (Json.str idStr) (by simp [herr])]
  rfl

/-- C3 witness: the roster route at team id 1 yields the Dodgers record with
the two players of team 1 in listing order. -/
theorem getRoster_present_team_witness :
    ((gatewayRosterWith teams players "1" =
      ⟨Json.obj [("team", dodgers),
        ("roster", Json.arr (rosterFilter (Json.str "1") players))], 200, true⟩)
  ∧ (rosterFilter (Json.str "1") players).Sublist players
  ∧ ∃ n : Int, parseInt "1" = some n ∧ jsGetField dodgers "id" = Json.num n)
  ∧ rosterFilter (Json.str "1") players = [ohtani, betts] :=
  ⟨getRoster_present_team teams players "1" dodgers (by decide) (by decide)
    (by decide) (by decide) (by decide), by decide⟩

/-- C4 counterexample: the payload with the field error set to the empty
string carries an error field, yet the roster route does not short-circuit on
it: it replies with status 200 and still calls the player directory. -/
theorem getRoster_error_presence_refuted :
    jsGetField (Json.obj [("error", Json.str "")]) "error" ≠ Json.undef
  ∧ (getRoster (Json.obj [("error", Json.str "")]) (Json.arr players)
      (Json.str "1")).status = 200
  ∧ (getRoster (Json.obj [("error", Json.str "")]) (Json.arr players)
      (Json.str "1")).calledPlayers = true := by
  refine ⟨by decide, by decide, by decide⟩

/-- C4 amended: the roster route judges the team lookup by the parsed payload
alone, never by the transport status, and short-circuits to the
gateway-authored 404 exactly when the payload is truthy and its error field is
truthy; otherwise the raw payload is kept for composition. -/
theorem getRoster_shortcircuit_iff (teamBody playersBody teamId : Json) (s t : Nat) :
    (getRoster teamBody playersBody teamId = ⟨jsErrObj "Team not found", 404, false⟩
       ↔ (jsTruthy teamBody && jsTruthy (jsGetField teamBody "error")) = true)
  ∧ ((jsTruthy teamBody && jsTruthy (jsGetField teamBody "error")) = false →
       getRoster teamBody playersBody teamId =
         ⟨Json.obj [("team", teamBody),
           ("roster", Json.arr (rosterOf playersBody teamId))], 200, true⟩)
  ∧ getRosterFromResponse (teamBody, s) playersBody teamId =
      getRosterFromResponse (teamBody, t) playersBody teamId := by
  refine ⟨?_, getRoster_composes teamBody playersBody teamId, rfl⟩
  by_cases h : (jsTruthy teamBody && jsTruthy (jsGetField teamBody "error")) = true
  · simp [getRoster, h]
  · rw [getRoster_composes teamBody playersBody teamId (by simpa using h)]
    simp [h]

/-- C4 amended witness: the Dodgers payload has no truthy error field, so the
roster route composes. -/
theorem getRoster_shortcircuit_iff_witness :
    getRoster dodgers (Json.arr players) (Json.num 1) =
      ⟨Json.obj [("team", dodgers),
        ("roster", Json.arr (rosterOf (Json.arr players) (Json.num 1)))], 200, true⟩ :=
  (getRoster_shortcircuit_iff dodgers (Json.arr players) (Json.num 1) 200 404).2.1
    (by decide)

/-- C5: a player is kept by the roster filter exactly when the String() form
of its teamId equals the String() form of the requested id, and in particular
a teamId sent as the number 1 and one sent as the string 1 both match a
request for team id 1. -/
theorem rosterFilter_mem_iff (teamId : Json) (ps : List Json) (p : Json) :
    (p ∈ rosterFilter teamId ps ↔
      p ∈ ps ∧ jsToString (jsGetField p "teamId") = jsToString teamId)
  ∧ rosterFilter (Json.num 1)
      [Json.obj [("teamId", Json.num 1)], Json.obj [("teamId", Json.str "1")]] =
      [Json.obj [("teamId", Json.num 1)], Json.obj [("teamId", Json.str "1")]] := by
  constructor
  · unfold rosterFilter
    rw [List.mem_filter]
    simp
  · decide

/-- C6: when the team branch passes and the players payload is not an array,
the roster route still replies 200 with the empty roster. -/
theorem getRoster_nonArray (teamBody playersBody teamId : Json)
    (hteam : (jsTruthy teamBody && jsTruthy (jsGetField teamBody "error")) = false)
    (hna : ∀ ps : List Json, playersBody ≠ Json.arr ps) :
    getRoster teamBody playersBody teamId =
      ⟨Json.obj [("team", teamBody), ("roster", Json.arr [])], 200, true⟩ := by
  rw [getRoster_composes teamBody playersBody teamId hteam]
  have hro : rosterOf playersBody teamId = [] := by
    unfold rosterOf
    cases playersBody with
    | arr ps => exact absurd rfl (hna ps)
    | undef => rfl
    | null => rfl
    | bool b => rfl
    | num n => rfl
    | str s => rfl
    | obj fs => rfl
  rw [hro]

/-- C6 witness: an empty-object players payload with the Dodgers team payload
yields the 200 reply with the empty roster. -/
theorem getRoster_nonArray_witness :
    getRoster dodgers (Json.obj []) (Json.num 1) =
      ⟨Json.obj [("team", dodgers), ("roster", Json.arr [])], 200, true⟩ :=
  getRoster_nonArray dodgers (Json.obj []) (Json.num 1) (by decide)
    (fun ps h => Json.noConfusion h)

/-- C7: a directory GET /:id replies the unique matching record with 200 when
a truthy one exists, and otherwise the service error payload with 404; the
match goes through integer coercion of the path id, and an id with no leading
digits falls into the 404 not-found reply, not a malformed-request error. -/
theorem directoryGetById_spec (records : List Json) (msg idStr : String) :
    ((∀ r ∈ records, recordMatches idStr r = false) →
        directoryGetById records msg idStr = (jsErrObj msg, 404))
  ∧ (parseInt idStr = none → directoryGetById records msg idStr = (jsErrObj msg, 404))
  ∧ (∀ t, t ∈ records → recordMatches idStr t = true → jsTruthy t = true →
        (∀ r ∈ records, recordMatches idStr r = true → r = t) →
        directoryGetById records msg idStr = (t, 200)) := by
  refine ⟨directoryGetById_notfound records msg idStr, ?_, ?_⟩
  · intro hnan
    refine directoryGetById_notfound records msg idStr (fun r _ => ?_)
    unfold recordMatches
    rw [hnan]
  · intro t hmem hmatch htr huniq
    exact directoryGetById_found records msg idStr t
      (find_of_unique (recordMatches idStr) records t hmem hmatch huniq) htr

/-- C7 witness: id 2 finds the unique player record Mookie Betts with 200, and
the non-numeric id xyz replies the team not-found payload with 404. -/
theorem directoryGetById_spec_witness :
    directoryGetById players "Player not found" "2" = (betts, 200)
  ∧ directoryGetById teams "Team not found" "xyz" =
      (jsErrObj "Team not found", 404) :=
  ⟨(directoryGetById_spec players "Player not found" "2").2.2 betts (by decide)
      (by decide) (by decide) (by decide),
    (directoryGetById_spec teams "Team not found" "xyz").2.1 (by decide)⟩

/-- C8: the roster computation is deterministic and idempotent: refiltering an
already filtered listing changes nothing, and feeding the filtered roster back
through the compose step yields the identical outcome. -/
theorem rosterFilter_idempotent (teamBody teamId : Json) (ps : List Json) :
    rosterFilter teamId (rosterFilter teamId ps) = rosterFilter teamId ps
  ∧ getRoster teamBody (Json.arr (rosterFilter teamId ps)) teamId =
      getRoster teamBody (Json.arr ps) teamId := by
  refine ⟨rosterFilter_twice teamId ps, ?_⟩
  by_cases h : (jsTruthy teamBody && jsTruthy (jsGetField teamBody "error")) = true
  · simp [getRoster, h]
  · rw [getRoster_composes teamBody _ teamId (by simpa using h),
      getRoster_composes teamBody _ teamId (by simpa using h)]
    simp [rosterOf, rosterFilter_twice]

/-- C9: a falsy team payload, or one whose error field is falsy, does not take
the not-found branch: the roster route proceeds, calls the player directory,
and replies 200 with the payload embedded verbatim as team. -/
theorem getRoster_falsy_passes (teamBody playersBody teamId : Json)
    (h : jsTruthy teamBody = false ∨ jsTruthy (jsGetField teamBody "error") = false) :
    getRoster teamBody playersBody teamId =
      ⟨Json.obj [("team", teamBody),
        ("roster", Json.arr (rosterOf playersBody teamId))], 200, true⟩ := by
  refine getRoster_composes teamBody playersBody teamId ?_
  cases h with
  | inl h => simp [h]
  | inr h => simp [h]

/-- C9 witness: the null payload and the payload with an empty-string error
field both pass through to the 200 composed reply. -/
theorem getRoster_falsy_passes_witness :
    getRoster Json.null (Json.arr players) (Json.num 1) =
      ⟨Json.obj [("team", Json.null),
        ("roster", Json.arr (rosterOf (Json.arr players) (Json.num 1)))], 200, true⟩
  ∧ getRoster (Json.obj [("error", Json.str "")]) (Json.arr players) (Json.num 1) =
      ⟨Json.obj [("team", Json.obj [("error", Json.str "")]),
        ("roster", Json.arr (rosterOf (Json.arr players) (Json.num 1)))], 200, true⟩ :=
  ⟨getRoster_falsy_passes Json.null (Json.arr players) (Json.num 1) (Or.inl rfl),
    getRoster_falsy_passes (Json.obj [("error", Json.str "")]) (Json.arr players)
      (Json.num 1) (Or.inr rfl)⟩

/-- C10: the id string 1abc integer-coerces to 1 by its leading digit, so both
directories reply their id-1 record with status 200 rather than not-found. -/
theorem getById_integer_coercion :
    parseInt "1abc" = some 1
  ∧ playerGetById "1abc" = (ohtani, 200)
  ∧ teamGetById "1abc" = (dodgers, 200) :=
  ⟨rfl, rfl, rfl⟩
